import Mathlib

/-!
Verification of the IAM policy risk-analysis engine from
`aws-iam-viewer/src/lib/api.ts` (`analyzePolicy`, `analyzeAllPolicies`,
`getHighRiskPolicies`, `getSecuritySummary`).

The analyzer consumes parsed-JSON values, so it is embedded over a `Json`
value type that mirrors JavaScript runtime values: property access on
`null`/`undefined` throws a `TypeError`, calling `.find` on a non-array
throws, and every fallible step is modelled in `Except String`.
-/

/-- A JavaScript runtime value as produced by parsing JSON, plus `undefined`
(the result of reading an absent property). -/
inductive Json where
  | null
  | undefinedVal
  | bool (b : Bool)
  | num (n : Int)
  | str (s : String)
  | arr (elems : List Json)
  | obj (fields : List (String × Json))

/-- JavaScript truthiness (`!x` in the source is `truthy x = false`). -/
def truthy : Json → Bool
  | .null => false
  | .undefinedVal => false
  | .bool b => b
  | .num n => n != 0
  | .str s => s != ""
  | .arr _ => true
  | .obj _ => true

/-- `true` unless the value is `null` or `undefined` (the two values on which
property access throws). -/
def jsDefined : Json → Bool
  | .null => false
  | .undefinedVal => false
  | _ => true

/-- JavaScript strict equality `===` on parsed-JSON values. Two distinct
nodes of a parse tree are never reference-equal, so arrays and objects
compare unequal. -/
def jsEq : Json → Json → Bool
  | .null, .null => true
  | .undefinedVal, .undefinedVal => true
  | .bool a, .bool b => a == b
  | .num a, .num b => a == b
  | .str a, .str b => a == b
  | _, _ => false

/-- First-match association lookup; absent keys read as `undefined`. -/
def lookupField : List (String × Json) → String → Json
  | [], _ => .undefinedVal
  | (k, v) :: rest, f => if k == f then v else lookupField rest f

/-- JavaScript property access `x.f`: throws a `TypeError` on `null` and
`undefined`, reads the field of an object, and yields `undefined` on every
other value (no built-in properties are ever read by the analyzer). -/
def jsGet : Json → String → Except String Json
  | .null, f => .error ("TypeError: Cannot read properties of null (reading " ++ f ++ ")")
  | .undefinedVal, f => .error ("TypeError: Cannot read properties of undefined (reading " ++ f ++ ")")
  | .obj fields, f => .ok (lookupField fields f)
  | _, _ => .ok .undefinedVal

/-- One security finding, mirroring the `SecurityFlag` interface of the
source (severity is one of the literals `"HIGH" | "MEDIUM" | "LOW"`). -/
structure SecurityFlag where
  id : String
  severity : String
  title : String
  description : String
  recommendation : String
  affectedStatements : List Nat
deriving DecidableEq

/-- Mirrors the `PolicyAnalysisResult` interface; `policyId`/`policyName`
carry whatever values the input policy record held. -/
structure PolicyAnalysisResult where
  policyId : Json
  policyName : Json
  flags : List SecurityFlag
  isHighRisk : Bool

/-- Mirrors the record returned by `getSecuritySummary`. -/
structure SecuritySummary where
  totalPolicies : Nat
  highRiskPolicies : Nat
  totalSecurityFlags : Nat
  highSeverityFlags : Nat
deriving DecidableEq

/-- The match condition of one catalog entry, as a tagged variant:
an anchored regular expression `/^s$/` over a single action, a literal
action membership test, membership of any of / all of a list of literal
actions, or the wildcard-resource test. -/
inductive MatchSpec where
  | regexExact (s : String)
  | actionExact (s : String)
  | actionAnyOf (ss : List String)
  | actionAllOf (ss : List String)
  | resourceWildcard

/-- One entry of the `DANGEROUS_PATTERNS` catalog together with the `id`
string pushed by its branch of `analyzePolicy`. -/
structure DetectionRule where
  key : String
  severity : String
  title : String
  description : String
  recommendation : String
  matchSpec : MatchSpec

/-- The finding pushed when a rule fires for the statement at `i`. -/
def ruleFlag (r : DetectionRule) (i : Nat) : SecurityFlag :=
  { id := r.key, severity := r.severity, title := r.title,
    description := r.description, recommendation := r.recommendation,
    affectedStatements := [i] }

/-- `DANGEROUS_PATTERNS.WILDCARD_PERMISSION` (regex `/^\*$/`). -/
def wildcardPermissionRule : DetectionRule :=
  { key := "wildcard-permission", severity := "HIGH",
    title := "Wildcard Permission",
    description := "Policy grants wildcard permissions (*)",
    recommendation := "Replace with specific permissions following the principle of least privilege",
    matchSpec := .regexExact "*" }

/-- `DANGEROUS_PATTERNS.WILDCARD_IAM` (regex `/^iam:\*$/`). -/
def wildcardIamRule : DetectionRule :=
  { key := "wildcard-iam", severity := "HIGH",
    title := "Wildcard IAM Permission",
    description := "Policy grants wildcard IAM permissions (iam:*)",
    recommendation := "Replace with specific IAM permissions following the principle of least privilege",
    matchSpec := .regexExact "iam:*" }

/-- `DANGEROUS_PATTERNS.WILDCARD_RESOURCE`. -/
def wildcardResourceRule : DetectionRule :=
  { key := "wildcard-resource", severity := "HIGH",
    title := "Wildcard Resource",
    description := "Policy allows all resources (\"*\")",
    recommendation := "Restrict resources to specific ARNs and scopes",
    matchSpec := .resourceWildcard }

/-- `DANGEROUS_PATTERNS.CREATE_POLICY_VERSION`. -/
def createPolicyVersionRule : DetectionRule :=
  { key := "create-policy-version", severity := "HIGH",
    title := "Create Policy Version",
    description := "Policy allows creating a new policy version that can be set as default to escalate privileges",
    recommendation := "Restrict iam:CreatePolicyVersion; limit which policies can be versioned and require approvals",
    matchSpec := .actionExact "iam:CreatePolicyVersion" }

/-- `DANGEROUS_PATTERNS.POLICY_VERSION_MANIPULATION`. -/
def policyVersionManipulationRule : DetectionRule :=
  { key := "policy-version-manipulation", severity := "HIGH",
    title := "Policy Version Manipulation",
    description := "Policy allows creation or activation of policy versions",
    recommendation := "Restrict policy version management to administrative roles only",
    matchSpec := .actionAnyOf ["iam:CreatePolicyVersion", "iam:SetDefaultPolicyVersion"] }

/-- `DANGEROUS_PATTERNS.PASSROLE_ANY`. -/
def passroleAnyRule : DetectionRule :=
  { key := "passrole-any", severity := "HIGH",
    title := "PassRole Permission Present",
    description := "Policy allows passing roles to AWS services, a common prerequisite for privilege escalation",
    recommendation := "Scope iam:PassRole with resource ARNs and conditions (iam:PassedToService, aws:ResourceTag) and apply permission boundaries",
    matchSpec := .actionExact "iam:PassRole" }

/-- `DANGEROUS_PATTERNS.PASSROLE_EC2`. -/
def passroleEc2Rule : DetectionRule :=
  { key := "passrole-ec2", severity := "HIGH",
    title := "Privilege Escalation via EC2",
    description := "Policy allows passing roles to EC2 instances, enabling privilege escalation",
    recommendation := "Restrict PassRole to specific roles or remove ec2:RunInstances permission",
    matchSpec := .actionAllOf ["iam:PassRole", "ec2:RunInstances"] }

/-- `DANGEROUS_PATTERNS.ACCESS_KEY_CREATION`. -/
def accessKeyCreationRule : DetectionRule :=
  { key := "access-key-creation", severity := "HIGH",
    title := "Access Key Creation",
    description := "Policy allows creation of access keys",
    recommendation := "Restrict access key creation to administrative users only",
    matchSpec := .actionExact "iam:CreateAccessKey" }

/-- `DANGEROUS_PATTERNS.LOGIN_PROFILE_MANIPULATION`. -/
def loginProfileManipulationRule : DetectionRule :=
  { key := "login-profile-manipulation", severity := "HIGH",
    title := "Login Profile Manipulation",
    description := "Policy allows manipulation of user login profiles",
    recommendation := "Restrict login profile management to administrative roles",
    matchSpec := .actionAnyOf ["iam:CreateLoginProfile", "iam:UpdateLoginProfile"] }

/-- `DANGEROUS_PATTERNS.POLICY_ATTACHMENT`. -/
def policyAttachmentRule : DetectionRule :=
  { key := "policy-attachment", severity := "HIGH",
    title := "Policy Attachment Permissions",
    description := "Policy allows attaching policies to users, groups, or roles",
    recommendation := "Restrict policy attachment to administrative roles only",
    matchSpec := .actionAnyOf ["iam:AttachUserPolicy", "iam:AttachGroupPolicy", "iam:AttachRolePolicy"] }

/-- `DANGEROUS_PATTERNS.INLINE_POLICY_MANIPULATION`. -/
def inlinePolicyManipulationRule : DetectionRule :=
  { key := "inline-policy-manipulation", severity := "HIGH",
    title := "Inline Policy Manipulation",
    description := "Policy allows creation/modification of inline policies",
    recommendation := "Restrict inline policy management to administrative roles",
    matchSpec := .actionAnyOf ["iam:PutUserPolicy", "iam:PutGroupPolicy", "iam:PutRolePolicy"] }

/-- `DANGEROUS_PATTERNS.GROUP_MEMBERSHIP`. -/
def groupMembershipRule : DetectionRule :=
  { key := "group-membership", severity := "MEDIUM",
    title := "Group Membership Modification",
    description := "Policy allows adding users to groups",
    recommendation := "Restrict group membership changes to administrative roles",
    matchSpec := .actionExact "iam:AddUserToGroup" }

/-- `DANGEROUS_PATTERNS.ASSUME_ROLE_POLICY_UPDATE`. -/
def assumeRolePolicyUpdateRule : DetectionRule :=
  { key := "assume-role-policy-update", severity := "HIGH",
    title := "Assume Role Policy Modification",
    description := "Policy allows modification of assume role policies",
    recommendation := "Restrict assume role policy updates to administrative roles",
    matchSpec := .actionExact "iam:UpdateAssumeRolePolicy" }

/-- `DANGEROUS_PATTERNS.LAMBDA_PRIVILEGE_ESCALATION`. -/
def lambdaPrivilegeEscalationRule : DetectionRule :=
  { key := "lambda-privilege-escalation", severity := "HIGH",
    title := "Lambda Privilege Escalation",
    description := "Policy allows creating Lambda functions with arbitrary roles",
    recommendation := "Restrict PassRole to specific roles or remove Lambda creation permissions",
    matchSpec := .actionAllOf ["iam:PassRole", "lambda:CreateFunction", "lambda:InvokeFunction"] }

/-- `DANGEROUS_PATTERNS.LAMBDA_EVENT_SOURCE_MANIPULATION`. -/
def lambdaEventSourceManipulationRule : DetectionRule :=
  { key := "lambda-event-source-manipulation", severity := "HIGH",
    title := "Lambda Event Source Manipulation",
    description := "Policy allows creating Lambda functions and event source mappings",
    recommendation := "Restrict Lambda event source management to specific roles",
    matchSpec := .actionAllOf ["iam:PassRole", "lambda:CreateFunction", "lambda:CreateEventSourceMapping"] }

/-- `DANGEROUS_PATTERNS.LAMBDA_CODE_UPDATE`. -/
def lambdaCodeUpdateRule : DetectionRule :=
  { key := "lambda-code-update", severity := "MEDIUM",
    title := "Lambda Code Modification",
    description := "Policy allows updating Lambda function code",
    recommendation := "Restrict Lambda code updates to authorized developers",
    matchSpec := .actionExact "lambda:UpdateFunctionCode" }

/-- `DANGEROUS_PATTERNS.GLUE_PRIVILEGE_ESCALATION`. -/
def gluePrivilegeEscalationRule : DetectionRule :=
  { key := "glue-privilege-escalation", severity := "HIGH",
    title := "Glue Privilege Escalation",
    description := "Policy allows creating Glue development endpoints with arbitrary roles",
    recommendation := "Restrict PassRole to specific Glue roles or remove dev endpoint creation",
    matchSpec := .actionAllOf ["iam:PassRole", "glue:CreateDevEndpoint", "glue:GetDevEndpoint"] }

/-- `DANGEROUS_PATTERNS.GLUE_ENDPOINT_MANIPULATION`. -/
def glueEndpointManipulationRule : DetectionRule :=
  { key := "glue-endpoint-manipulation", severity := "MEDIUM",
    title := "Glue Endpoint Manipulation",
    description := "Policy allows modification of Glue development endpoints",
    recommendation := "Restrict Glue endpoint management to authorized users",
    matchSpec := .actionAllOf ["glue:UpdateDevEndpoint", "glue:GetDevEndpoint"] }

/-- `DANGEROUS_PATTERNS.CLOUDFORMATION_PRIVILEGE_ESCALATION`. -/
def cloudformationPrivilegeEscalationRule : DetectionRule :=
  { key := "cloudformation-privilege-escalation", severity := "HIGH",
    title := "CloudFormation Privilege Escalation",
    description := "Policy allows creating CloudFormation stacks with arbitrary roles",
    recommendation := "Restrict PassRole to specific CloudFormation roles",
    matchSpec := .actionAllOf ["iam:PassRole", "cloudformation:CreateStack", "cloudformation:DescribeStacks"] }

/-- `DANGEROUS_PATTERNS.DATAPIPELINE_PRIVILEGE_ESCALATION`. -/
def datapipelinePrivilegeEscalationRule : DetectionRule :=
  { key := "datapipeline-privilege-escalation", severity := "HIGH",
    title := "Data Pipeline Privilege Escalation",
    description := "Policy allows creating and managing data pipelines with arbitrary roles",
    recommendation := "Restrict PassRole to specific Data Pipeline roles",
    matchSpec := .actionAllOf ["iam:PassRole", "datapipeline:CreatePipeline", "datapipeline:PutPipelineDefinition", "datapipeline:ActivatePipeline"] }

/-- Whether a match condition holds for a statement's normalized action
list and resource list. The two regexes of the source, `/^\*$/` and
`/^iam:\*$/`, are anchored literals, so `regexExact` is exact string
equality. -/
def ruleFires (m : MatchSpec) (actions : List String) (resources : List Json) : Bool :=
  match m with
  | .regexExact s => actions.any (fun a => a == s)
  | .actionExact s => actions.contains s
  | .actionAnyOf ss => actions.any (fun a => ss.contains a)
  | .actionAllOf ss => ss.all (fun s => actions.contains s)
  | .resourceWildcard => resources.any (fun r => jsEq r (.str "*"))

/-- Data-driven evaluation of a rule list against one normalized statement:
each firing rule contributes one finding, in list order. -/
def catalogFlags (rules : List DetectionRule) (actions : List String)
    (resources : List Json) (i : Nat) : List SecurityFlag :=
  match rules with
  | [] => []
  | r :: rest =>
    if ruleFires r.matchSpec actions resources
    then ruleFlag r i :: catalogFlags rest actions resources i
    else catalogFlags rest actions resources i

/-- The catalog in the order in which `analyzePolicy`'s statement loop
actually evaluates the rules: the wildcard-resource check comes first
(before the two wildcard-action checks), then the remaining rules in
declaration order. -/
def evaluationOrderCatalog : List DetectionRule :=
  [wildcardResourceRule, wildcardPermissionRule, wildcardIamRule,
   createPolicyVersionRule, policyVersionManipulationRule, passroleAnyRule,
   passroleEc2Rule, accessKeyCreationRule, loginProfileManipulationRule,
   policyAttachmentRule, inlinePolicyManipulationRule, groupMembershipRule,
   assumeRolePolicyUpdateRule, lambdaPrivilegeEscalationRule,
   lambdaEventSourceManipulationRule, lambdaCodeUpdateRule,
   gluePrivilegeEscalationRule, glueEndpointManipulationRule,
   cloudformationPrivilegeEscalationRule, datapipelinePrivilegeEscalationRule]

/-- Modelled from the spec: the rule table of section 4.1 in its listed
order (wildcard-permission, wildcard-iam, wildcard-resource, then the
rest), which is also the declaration order of `DANGEROUS_PATTERNS`. Used
only to compare the spec's claimed output order against the code. -/
def specTableCatalog : List DetectionRule :=
  [wildcardPermissionRule, wildcardIamRule, wildcardResourceRule,
   createPolicyVersionRule, policyVersionManipulationRule, passroleAnyRule,
   passroleEc2Rule, accessKeyCreationRule, loginProfileManipulationRule,
   policyAttachmentRule, inlinePolicyManipulationRule, groupMembershipRule,
   assumeRolePolicyUpdateRule, lambdaPrivilegeEscalationRule,
   lambdaEventSourceManipulationRule, lambdaCodeUpdateRule,
   gluePrivilegeEscalationRule, glueEndpointManipulationRule,
   cloudformationPrivilegeEscalationRule, datapipelinePrivilegeEscalationRule]

/-- `Array.isArray(statement.Action) ? statement.Action : [statement.Action]`
followed by `filter(a => typeof a === 'string')`. -/
def normalizeActions (actionJ : Json) : List String :=
  let actionsRaw : List Json :=
    match actionJ with
    | .arr xs => xs
    | a => [a]
  actionsRaw.filterMap (fun a => match a with | .str s => some s | _ => none)

/-- `Array.isArray(r) ? r : r !== undefined ? [r] : []`. -/
def normalizeResources (resourceRaw : Json) : List Json :=
  match resourceRaw with
  | .arr xs => xs
  | .undefinedVal => []
  | r => [r]

/-- The body of the statement loop of `analyzePolicy` after normalization:
the twenty hand-written checks, in source order, each appending one
finding when its condition holds. -/
def statementFlags (actions : List String) (resources : List Json)
    (statementIndex : Nat) : List SecurityFlag :=
  (if resources.any (fun r => jsEq r (.str "*")) then [ruleFlag wildcardResourceRule statementIndex] else []) ++
  (if actions.any (fun a => a == "*") then [ruleFlag wildcardPermissionRule statementIndex] else []) ++
  (if actions.any (fun a => a == "iam:*") then [ruleFlag wildcardIamRule statementIndex] else []) ++
  (if actions.contains "iam:CreatePolicyVersion" then [ruleFlag createPolicyVersionRule statementIndex] else []) ++
  (if actions.any (fun a => ["iam:CreatePolicyVersion", "iam:SetDefaultPolicyVersion"].contains a) then [ruleFlag policyVersionManipulationRule statementIndex] else []) ++
  (if actions.contains "iam:PassRole" then [ruleFlag passroleAnyRule statementIndex] else []) ++
  (if actions.contains "iam:PassRole" && actions.contains "ec2:RunInstances" then [ruleFlag passroleEc2Rule statementIndex] else []) ++
  (if actions.contains "iam:CreateAccessKey" then [ruleFlag accessKeyCreationRule statementIndex] else []) ++
  (if actions.any (fun a => ["iam:CreateLoginProfile", "iam:UpdateLoginProfile"].contains a) then [ruleFlag loginProfileManipulationRule statementIndex] else []) ++
  (if actions.any (fun a => ["iam:AttachUserPolicy", "iam:AttachGroupPolicy", "iam:AttachRolePolicy"].contains a) then [ruleFlag policyAttachmentRule statementIndex] else []) ++
  (if actions.any (fun a => ["iam:PutUserPolicy", "iam:PutGroupPolicy", "iam:PutRolePolicy"].contains a) then [ruleFlag inlinePolicyManipulationRule statementIndex] else []) ++
  (if actions.contains "iam:AddUserToGroup" then [ruleFlag groupMembershipRule statementIndex] else []) ++
  (if actions.contains "iam:UpdateAssumeRolePolicy" then [ruleFlag assumeRolePolicyUpdateRule statementIndex] else []) ++
  (if actions.contains "iam:PassRole" && actions.contains "lambda:CreateFunction" && actions.contains "lambda:InvokeFunction" then [ruleFlag lambdaPrivilegeEscalationRule statementIndex] else []) ++
  (if actions.contains "iam:PassRole" && actions.contains "lambda:CreateFunction" && actions.contains "lambda:CreateEventSourceMapping" then [ruleFlag lambdaEventSourceManipulationRule statementIndex] else []) ++
  (if actions.contains "lambda:UpdateFunctionCode" then [ruleFlag lambdaCodeUpdateRule statementIndex] else []) ++
  (if actions.contains "iam:PassRole" && actions.contains "glue:CreateDevEndpoint" && actions.contains "glue:GetDevEndpoint" then [ruleFlag gluePrivilegeEscalationRule statementIndex] else []) ++
  (if actions.contains "glue:UpdateDevEndpoint" && actions.contains "glue:GetDevEndpoint" then [ruleFlag glueEndpointManipulationRule statementIndex] else []) ++
  (if actions.contains "iam:PassRole" && actions.contains "cloudformation:CreateStack" && actions.contains "cloudformation:DescribeStacks" then [ruleFlag cloudformationPrivilegeEscalationRule statementIndex] else []) ++
  (if actions.contains "iam:PassRole" && actions.contains "datapipeline:CreatePipeline" && actions.contains "datapipeline:PutPipelineDefinition" && actions.contains "datapipeline:ActivatePipeline" then [ruleFlag datapipelinePrivilegeEscalationRule statementIndex] else [])

/-- One iteration of the statement loop, parameterized by the function
computing the per-statement findings. Reads `statement.Effect` (which
throws on a `null` array entry), skips non-`Allow` statements, then
normalizes `Action` and `Resource` and evaluates the checks. -/
def analyzeStatementWith
    (flagsOf : List String → List Json → Nat → List SecurityFlag)
    (statement : Json) (statementIndex : Nat) :
    Except String (List SecurityFlag) :=
  match jsGet statement "Effect" with
  | .error e => .error e
  | .ok eff =>
    if jsEq eff (.str "Allow") then
      match jsGet statement "Action" with
      | .error e => .error e
      | .ok actionJ =>
        match jsGet statement "Resource" with
        | .error e => .error e
        | .ok resourceRaw =>
          .ok (flagsOf (normalizeActions actionJ) (normalizeResources resourceRaw) statementIndex)
    else .ok []

/-- The statement loop of `analyzePolicy` (hand-written checks). -/
def analyzeStatement : Json → Nat → Except String (List SecurityFlag) :=
  analyzeStatementWith statementFlags

/-- `statements.forEach(...)` with the running index, parameterized by the
per-statement analyzer; a throw in any iteration aborts the whole call. -/
def analyzeStatementsWith
    (stmtEval : Json → Nat → Except String (List SecurityFlag)) :
    List Json → Nat → Except String (List SecurityFlag)
  | [], _ => .ok []
  | s :: rest, i =>
    match stmtEval s i with
    | .error e => .error e
    | .ok fs =>
      match analyzeStatementsWith stmtEval rest (i + 1) with
      | .error e => .error e
      | .ok more => .ok (fs ++ more)

/-- The statement loop over the hand-written checks. -/
def analyzeStatements : List Json → Nat → Except String (List SecurityFlag) :=
  analyzeStatementsWith analyzeStatement

/-- `Array.isArray(document.Statement) ? document.Statement
: document.Statement ? [document.Statement] : []`. -/
def normalizeStatementList (stmtJ : Json) : List Json :=
  match stmtJ with
  | .arr xs => xs
  | s => if truthy s then [s] else []

/-- `policy.PolicyVersionList.find(v => v.VersionId === policy.DefaultVersionId)`.
`policy.DefaultVersionId` is hoisted out of the callback: by the time the
callback runs, `policy` is known non-null, so the hoisted read is pure and
cannot throw. Reading `VersionId` of a `null`/`undefined` element throws. -/
def findDefaultVersion (versions : List Json) (dvid : Json) :
    Except String (Option Json) :=
  match versions with
  | [] => .ok none
  | v :: rest =>
    match jsGet v "VersionId" with
    | .error e => .error e
    | .ok vid => if jsEq vid dvid then .ok (some v) else findDefaultVersion rest dvid

/-- `analyzePolicy`, parameterized by the statement-list analyzer.
`policy.PolicyId` and `policy.PolicyName` are hoisted to just after the
`find` call; at every point the source reads them, `policy` is known
non-null, so hoisting cannot change the outcome. Calling `.find` on a
non-array `PolicyVersionList` throws, exactly as in JavaScript. -/
def analyzePolicyWith
    (stmtListEval : List Json → Nat → Except String (List SecurityFlag))
    (policy : Json) : Except String PolicyAnalysisResult :=
  match jsGet policy "PolicyVersionList" with
  | .error e => .error e
  | .ok pvl =>
    match pvl with
    | .arr versions =>
      match jsGet policy "DefaultVersionId" with
      | .error e => .error e
      | .ok dvid =>
        match findDefaultVersion versions dvid with
        | .error e => .error e
        | .ok dvOpt =>
          match jsGet policy "PolicyId" with
          | .error e => .error e
          | .ok pid =>
            match jsGet policy "PolicyName" with
            | .error e => .error e
            | .ok pname =>
              match dvOpt with
              | none => .ok ⟨pid, pname, [], false⟩
              | some dv =>
                if truthy dv = false then .ok ⟨pid, pname, [], false⟩
                else
                  match jsGet dv "Document" with
                  | .error e => .error e
                  | .ok doc =>
                    if truthy doc = false then .ok ⟨pid, pname, [], false⟩
                    else
                      match jsGet doc "Statement" with
                      | .error e => .error e
                      | .ok stmtJ =>
                        match stmtListEval (normalizeStatementList stmtJ) 0 with
                        | .error e => .error e
                        | .ok flags =>
                          .ok ⟨pid, pname, flags,
                               flags.any (fun f => f.severity == "HIGH")⟩
    | _ => .error "TypeError: policy.PolicyVersionList.find is not a function"

/-- The exported `analyzePolicy`. -/
def analyzePolicy : Json → Except String PolicyAnalysisResult :=
  analyzePolicyWith analyzeStatements

/-- Data-driven variant of `analyzePolicy`: identical control flow, but the
per-statement findings are produced by folding the evaluation-order rule
catalog instead of the twenty hand-written branches. -/
def analyzePolicyCatalog : Json → Except String PolicyAnalysisResult :=
  analyzePolicyWith
    (analyzeStatementsWith (analyzeStatementWith (catalogFlags evaluationOrderCatalog)))

/-- `analyzeAllPolicies`: `Object.values(policies).map(analyzePolicy)` over
an insertion-ordered keyed collection; a throw on any policy propagates. -/
def analyzeAllPolicies : List (String × Json) → Except String (List PolicyAnalysisResult)
  | [] => .ok []
  | (_, p) :: rest =>
    match analyzePolicy p with
    | .error e => .error e
    | .ok r =>
      match analyzeAllPolicies rest with
      | .error e => .error e
      | .ok rs => .ok (r :: rs)

/-- `getHighRiskPolicies`. -/
def getHighRiskPolicies (policies : List (String × Json)) :
    Except String (List PolicyAnalysisResult) :=
  match analyzeAllPolicies policies with
  | .error e => .error e
  | .ok results => .ok (results.filter (fun r => r.isHighRisk))

/-- `getSecuritySummary` (the two `reduce` calls are left folds from 0). -/
def getSecuritySummary (policies : List (String × Json)) :
    Except String SecuritySummary :=
  match analyzeAllPolicies policies with
  | .error e => .error e
  | .ok results =>
    .ok { totalPolicies := results.length,
          highRiskPolicies := (results.filter (fun r => r.isHighRisk)).length,
          totalSecurityFlags := results.foldl (fun sum r => sum + r.flags.length) 0,
          highSeverityFlags := results.foldl
            (fun sum r => sum + (r.flags.filter (fun f => f.severity == "HIGH")).length) 0 }

/-- The inputs on which `analyzePolicy` cannot hit a JavaScript `TypeError`:
the policy's `PolicyVersionList` reads as an array of non-null,
non-undefined entries, and, when a usable default document is reached, the
normalized statement list has no null/undefined entries. Computed by
re-tracing the same reads `analyzePolicy` performs. -/
def wfPolicyInput (policy : Json) : Bool :=
  match jsGet policy "PolicyVersionList" with
  | .error _ => false
  | .ok (.arr versions) =>
    versions.all jsDefined &&
    (match jsGet policy "DefaultVersionId" with
     | .error _ => false
     | .ok dvid =>
       match findDefaultVersion versions dvid with
       | .error _ => false
       | .ok none => true
       | .ok (some dv) =>
         if truthy dv = false then true
         else
           match jsGet dv "Document" with
           | .error _ => false
           | .ok doc =>
             if truthy doc = false then true
             else
               match jsGet doc "Statement" with
               | .error _ => false
               | .ok stmtJ => (normalizeStatementList stmtJ).all jsDefined)
  | .ok _ => false

/-- The policies C3 speaks about: the version list is an array of
non-null, non-undefined entries and either no entry's `VersionId` is
strictly equal to `DefaultVersionId`, or the first matching entry has a
falsy (absent or empty) `Document`. -/
def noUsableDefaultDocument (policy : Json) : Bool :=
  match jsGet policy "PolicyVersionList" with
  | .error _ => false
  | .ok (.arr versions) =>
    versions.all jsDefined &&
    (match jsGet policy "DefaultVersionId" with
     | .error _ => false
     | .ok dvid =>
       match findDefaultVersion versions dvid with
       | .error _ => false
       | .ok none => true
       | .ok (some dv) =>
         match jsGet dv "Document" with
         | .error _ => false
         | .ok doc => !truthy doc)
  | .ok _ => false

/-- A policy whose default document's `Statement` array contains a JSON
`null` entry: syntactically JSON-compatible, but reading `.Effect` of the
`null` throws. -/
def nullStatementPolicy : Json :=
  .obj [("PolicyName", .str "BadPolicy"), ("PolicyId", .str "BP1"),
        ("DefaultVersionId", .str "v1"),
        ("PolicyVersionList", .arr [
          .obj [("Document", .obj [("Version", .str "2012-10-17"),
                                   ("Statement", .arr [Json.null])]),
                ("VersionId", .str "v1"),
                ("IsDefaultVersion", .bool true)]])]

/-- One `Allow` statement with `Action: "*"` and `Resource: "*"`: both the
wildcard-permission and the wildcard-resource rules fire, which exposes the
evaluation order. -/
def doubleWildcardPolicy : Json :=
  .obj [("PolicyName", .str "DoubleWildcard"), ("PolicyId", .str "DW1"),
        ("DefaultVersionId", .str "v1"),
        ("PolicyVersionList", .arr [
          .obj [("Document", .obj [("Version", .str "2012-10-17"),
                                   ("Statement", .arr [
                                     .obj [("Effect", .str "Allow"),
                                           ("Action", .str "*"),
                                           ("Resource", .str "*")]])]),
                ("VersionId", .str "v1"),
                ("IsDefaultVersion", .bool true)]])]

/-- The policy of concrete scenario 1 of the spec: one `Allow` statement,
`Action: ["iam:PassRole", "ec2:RunInstances"]`, `Resource: "*"`. -/
def passroleEc2Policy : Json :=
  .obj [("PolicyName", .str "PassRoleEc2"), ("PolicyId", .str "PR1"),
        ("DefaultVersionId", .str "v1"),
        ("PolicyVersionList", .arr [
          .obj [("Document", .obj [("Version", .str "2012-10-17"),
                                   ("Statement", .arr [
                                     .obj [("Effect", .str "Allow"),
                                           ("Action", .arr [.str "iam:PassRole", .str "ec2:RunInstances"]),
                                           ("Resource", .str "*")]])]),
                ("VersionId", .str "v1"),
                ("IsDefaultVersion", .bool true)]])]

/-- A single bare statement object (not wrapped in an array). -/
def bareIamStarStatement : Json :=
  .obj [("Effect", .str "Allow"), ("Action", .str "iam:*")]

/-- The policy of concrete scenario 5 of the spec: the default document's
`Statement` is `bareIamStarStatement` itself, not a one-element array. -/
def bareStatementPolicy : Json :=
  .obj [("PolicyName", .str "BareStatement"), ("PolicyId", .str "BS1"),
        ("DefaultVersionId", .str "v1"),
        ("PolicyVersionList", .arr [
          .obj [("Document", .obj [("Version", .str "2012-10-17"),
                                   ("Statement", bareIamStarStatement)]),
                ("VersionId", .str "v1"),
                ("IsDefaultVersion", .bool true)]])]

/-- A `Deny` statement with maximally dangerous action/resource content. -/
def denyStatement : Json :=
  .obj [("Effect", .str "Deny"), ("Action", .str "*"), ("Resource", .str "*")]

/-- An `Allow` statement granting `iam:PassRole` on a scoped resource. -/
def passroleStatement : Json :=
  .obj [("Effect", .str "Allow"), ("Action", .str "iam:PassRole"),
        ("Resource", .str "arn:aws:iam::123456789012:role/example")]

/-- A policy whose `DefaultVersionId` matches no entry of the version
list. -/
def orphanDefaultPolicy : Json :=
  .obj [("PolicyName", .str "Orphan"), ("PolicyId", .str "OD1"),
        ("DefaultVersionId", .str "v2"),
        ("PolicyVersionList", .arr [
          .obj [("Document", .obj [("Statement", .arr [denyStatement])]),
                ("VersionId", .str "v1"),
                ("IsDefaultVersion", .bool false)]])]

/-- Exactly one HIGH finding (`passrole-any`). -/
def policyOne : Json :=
  .obj [("PolicyName", .str "PolicyOne"), ("PolicyId", .str "P1"),
        ("DefaultVersionId", .str "v1"),
        ("PolicyVersionList", .arr [
          .obj [("Document", .obj [("Statement", .arr [passroleStatement])]),
                ("VersionId", .str "v1"),
                ("IsDefaultVersion", .bool true)]])]

/-- Exactly one MEDIUM finding (`group-membership`), no HIGH finding. -/
def policyTwo : Json :=
  .obj [("PolicyName", .str "PolicyTwo"), ("PolicyId", .str "P2"),
        ("DefaultVersionId", .str "v1"),
        ("PolicyVersionList", .arr [
          .obj [("Document", .obj [("Statement", .arr [
                  .obj [("Effect", .str "Allow"),
                        ("Action", .str "iam:AddUserToGroup"),
                        ("Resource", .str "arn:aws:iam::123456789012:group/dev")]])]),
                ("VersionId", .str "v1"),
                ("IsDefaultVersion", .bool true)]])]

/-- No findings at all. -/
def policyThree : Json :=
  .obj [("PolicyName", .str "PolicyThree"), ("PolicyId", .str "P3"),
        ("DefaultVersionId", .str "v1"),
        ("PolicyVersionList", .arr [
          .obj [("Document", .obj [("Statement", .arr [
                  .obj [("Effect", .str "Allow"),
                        ("Action", .str "s3:GetObject"),
                        ("Resource", .str "arn:aws:s3:::my-bucket/*")]])]),
                ("VersionId", .str "v1"),
                ("IsDefaultVersion", .bool true)]])]

/-- The keyed collection of concrete scenario 6 of the spec: exactly one
policy with a HIGH finding and one with only a MEDIUM finding. -/
def threePolicies : List (String × Json) :=
  [("P1", policyOne), ("P2", policyTwo), ("P3", policyThree)]

/-- The analysis results of `threePolicies`, written out. -/
def threeResults : List PolicyAnalysisResult :=
  [⟨.str "P1", .str "PolicyOne", [ruleFlag passroleAnyRule 0], true⟩,
   ⟨.str "P2", .str "PolicyTwo", [ruleFlag groupMembershipRule 0], false⟩,
   ⟨.str "P3", .str "PolicyThree", [], false⟩]

/-- The analysis result of `policyTwo`: only a MEDIUM finding. -/
def mediumOnlyResult : PolicyAnalysisResult :=
  ⟨.str "P2", .str "PolicyTwo", [ruleFlag groupMembershipRule 0], false⟩

/-- A policy whose version list is `[null]` and whose `DefaultVersionId`
therefore matches no version: syntactically JSON-compatible, but the
`find` callback reads `.VersionId` of the `null` entry and throws. -/
def nullVersionEntryPolicy : Json :=
  .obj [("PolicyName", .str "NullVersion"), ("PolicyId", .str "NV1"),
        ("DefaultVersionId", .str "v2"),
        ("PolicyVersionList", .arr [Json.null])]

/-- One step of the catalog fold, as a conditional singleton append. -/
theorem catalog_cons (r : DetectionRule) (rest : List DetectionRule)
    (actions : List String) (resources : List Json) (i : Nat) :
    catalogFlags (r :: rest) actions resources i
      = (if ruleFires r.matchSpec actions resources then [ruleFlag r i] else [])
        ++ catalogFlags rest actions resources i := by
  rw [catalogFlags.eq_def]
  cases h : ruleFires r.matchSpec actions resources <;> simp [h]

/-- The catalog fold of the empty rule list. -/
theorem catalog_nil (actions : List String) (resources : List Json) (i : Nat) :
    catalogFlags [] actions resources i = [] := rfl

/-- Membership in `List.contains` survives appending on the right. -/
theorem contains_append_left {l l' : List String} {x : String}
    (h : l.contains x = true) : (l ++ l').contains x = true := by
  simp only [List.contains, List.elem_eq_mem, decide_eq_true_eq] at h ⊢
  exact List.mem_append_left l' h

/-- The twenty hand-written checks of the statement loop produce exactly
the findings of the evaluation-order catalog, in catalog order. -/
theorem statementFlags_eq_catalogFlags (actions : List String)
    (resources : List Json) (i : Nat) :
    statementFlags actions resources i
      = catalogFlags evaluationOrderCatalog actions resources i := by
  simp only [statementFlags, evaluationOrderCatalog, catalog_cons, catalog_nil,
    ruleFires, wildcardResourceRule, wildcardPermissionRule, wildcardIamRule,
    createPolicyVersionRule, policyVersionManipulationRule, passroleAnyRule,
    passroleEc2Rule, accessKeyCreationRule, loginProfileManipulationRule,
    policyAttachmentRule, inlinePolicyManipulationRule, groupMembershipRule,
    assumeRolePolicyUpdateRule, lambdaPrivilegeEscalationRule,
    lambdaEventSourceManipulationRule, lambdaCodeUpdateRule,
    gluePrivilegeEscalationRule, glueEndpointManipulationRule,
    cloudformationPrivilegeEscalationRule, datapipelinePrivilegeEscalationRule,
    List.all_cons, List.all_nil, Bool.and_true, Bool.and_assoc]
  simp only [List.append_assoc, List.append_nil]

/-- The per-statement analyzer equals its data-driven counterpart. -/
theorem analyzeStatement_eq_catalog :
    analyzeStatement
      = analyzeStatementWith (catalogFlags evaluationOrderCatalog) := by
  have h : statementFlags = catalogFlags evaluationOrderCatalog := by
    funext a r i
    exact statementFlags_eq_catalogFlags a r i
  unfold analyzeStatement
  rw [h]

/-- `analyzePolicy` equals its data-driven counterpart as functions. -/
theorem analyzePolicy_eq_catalog_fun : analyzePolicy = analyzePolicyCatalog := by
  unfold analyzePolicy analyzePolicyCatalog analyzeStatements
  rw [analyzeStatement_eq_catalog]

/-- Claim C2 (amended): for every policy, the finding list of
`analyzePolicy` is the concatenation, over statements in their normalized
order, of each statement's matches listed in the order in which the code
evaluates the catalog — wildcard-resource first, then wildcard-permission,
wildcard-iam, create-policy-version, and so on through
datapipeline-privilege-escalation — as witnessed by equality with the
data-driven evaluator over `evaluationOrderCatalog`. -/
theorem analyzePolicy_eq_catalog_order (policy : Json) :
    analyzePolicy policy = analyzePolicyCatalog policy :=
  congrFun analyzePolicy_eq_catalog_fun policy

/-- Counterexample to claim C2 as stated: on a policy with one `Allow`
statement carrying `Action: "*"` and `Resource: "*"`, the code emits
`wildcard-resource` before `wildcard-permission`, while the spec's
section-4.1 table order predicts `wildcard-permission` first. -/
theorem analyzePolicy_order_differs_from_spec_table :
    ((analyzePolicy doubleWildcardPolicy).map
        (fun r => r.flags.map (fun f => f.id))
      = .ok ["wildcard-resource", "wildcard-permission"])
    ∧ ((catalogFlags specTableCatalog ["*"] [.str "*"] 0).map (fun f => f.id)
      = ["wildcard-permission", "wildcard-resource"])
    ∧ (["wildcard-resource", "wildcard-permission"] : List String)
      ≠ ["wildcard-permission", "wildcard-resource"] :=
  ⟨rfl, rfl, by decide⟩

/-- Counterexample to claim C1 as stated: a syntactically JSON-compatible
policy whose default document's `Statement` array contains `null` makes
`analyzePolicy` throw a `TypeError` (reading `.Effect` of `null`) instead
of degrading to an empty finding list. -/
theorem analyzePolicy_statement_null_throws :
    analyzePolicy nullStatementPolicy
      = .error "TypeError: Cannot read properties of null (reading Effect)" := rfl

/-- Claim C6: on a policy with one `Allow` statement,
`Action: ["iam:PassRole", "ec2:RunInstances"]`, `Resource: "*"`,
`analyzePolicy` returns exactly the three findings `wildcard-resource`,
`passrole-any`, `passrole-ec2`, each affecting statement 0, and
`isHighRisk = true`. -/
theorem analyzePolicy_passrole_ec2_scenario :
    (analyzePolicy passroleEc2Policy).map
        (fun r => (r.flags.map (fun f => f.id),
                   r.flags.map (fun f => f.affectedStatements),
                   r.isHighRisk))
      = .ok (["wildcard-resource", "passrole-any", "passrole-ec2"],
             [[0], [0], [0]], true) := rfl

/-- Claim C7: a default document whose `Statement` is a single bare object
with `Effect: "Allow"`, `Action: "iam:*"` is normalized to a one-element
sequence, and the analysis yields exactly the `wildcard-iam` finding at
statement index 0. -/
theorem analyzePolicy_bare_statement_normalized :
    (normalizeStatementList bareIamStarStatement = [bareIamStarStatement])
    ∧ ((analyzePolicy bareStatementPolicy).map
          (fun r => (r.flags.map (fun f => f.id),
                     r.flags.map (fun f => f.affectedStatements)))
        = .ok (["wildcard-iam"], [[0]])) :=
  ⟨rfl, rfl⟩

/-- Property access succeeds on every value except `null`/`undefined`. -/
theorem jsGet_isOk (x : Json) (f : String) (h : jsDefined x = true) :
    ∃ v, jsGet x f = .ok v := by
  cases x with
  | null => simp [jsDefined] at h
  | undefinedVal => simp [jsDefined] at h
  | bool b => exact ⟨.undefinedVal, rfl⟩
  | num n => exact ⟨.undefinedVal, rfl⟩
  | str s => exact ⟨.undefinedVal, rfl⟩
  | arr xs => exact ⟨.undefinedVal, rfl⟩
  | obj fields => exact ⟨lookupField fields f, rfl⟩

/-- Only an object can answer a property read with an array. -/
theorem jsGet_arr_implies_obj (policy : Json) (f : String) (vs : List Json)
    (h : jsGet policy f = .ok (.arr vs)) : ∃ fields, policy = .obj fields := by
  cases policy <;> simp [jsGet] at h
  exact ⟨_, rfl⟩

/-- `find` over a list of non-null versions cannot throw. -/
theorem findDefaultVersion_isOk (versions : List Json) (dvid : Json)
    (h : versions.all jsDefined = true) :
    ∃ o, findDefaultVersion versions dvid = .ok o := by
  induction versions with
  | nil => exact ⟨none, rfl⟩
  | cons v rest ih =>
    simp only [List.all_cons, Bool.and_eq_true] at h
    obtain ⟨vid, hv⟩ := jsGet_isOk v "VersionId" h.1
    obtain ⟨o, ho⟩ := ih h.2
    unfold findDefaultVersion
    rw [hv]
    dsimp only
    by_cases he : jsEq vid dvid = true
    · rw [if_pos he]; exact ⟨some v, rfl⟩
    · rw [if_neg he]; exact ⟨o, ho⟩

/-- Analyzing a non-null, non-undefined statement value cannot throw. -/
theorem analyzeStatement_isOk (s : Json) (i : Nat) (h : jsDefined s = true) :
    ∃ fs, analyzeStatement s i = .ok fs := by
  unfold analyzeStatement analyzeStatementWith
  obtain ⟨eff, he⟩ := jsGet_isOk s "Effect" h
  rw [he]
  dsimp only
  by_cases ha : jsEq eff (.str "Allow") = true
  · rw [if_pos ha]
    obtain ⟨aj, hA⟩ := jsGet_isOk s "Action" h
    obtain ⟨rj, hR⟩ := jsGet_isOk s "Resource" h
    rw [hA, hR]
    dsimp only
    exact ⟨_, rfl⟩
  · rw [if_neg ha]
    exact ⟨[], rfl⟩

/-- The statement loop over non-null, non-undefined entries cannot throw. -/
theorem analyzeStatements_isOk (xs : List Json) (i : Nat)
    (h : xs.all jsDefined = true) :
    ∃ fs, analyzeStatements xs i = .ok fs := by
  induction xs generalizing i with
  | nil => exact ⟨[], rfl⟩
  | cons s rest ih =>
    simp only [List.all_cons, Bool.and_eq_true] at h
    obtain ⟨fs, hfs⟩ := analyzeStatement_isOk s i h.1
    obtain ⟨more, hmore⟩ := ih (i + 1) h.2
    refine ⟨fs ++ more, ?_⟩
    unfold analyzeStatements analyzeStatementsWith
    unfold analyzeStatements at hmore
    rw [hfs, hmore]

/-- Claim C1 (amended): `analyzePolicy` terminates normally and returns a
`PolicyAnalysisResult` for every input whose `PolicyVersionList` reads as
an array of non-null, non-undefined entries and whose normalized statement
list (when a usable default document is reached) contains no
null/undefined entries; within this domain every malformed shape degrades
to findings, never to a thrown error. (The original claim is refuted by
`analyzePolicy_statement_null_throws`: property access on a JSON `null`
throws in JavaScript.) -/
theorem analyzePolicy_total_on_wf_input (policy : Json)
    (h : wfPolicyInput policy = true) :
    ∃ r, analyzePolicy policy = .ok r := by
  unfold wfPolicyInput at h
  cases hpvl : jsGet policy "PolicyVersionList" with
  | error e => rw [hpvl] at h; simp at h
  | ok pvl =>
    rw [hpvl] at h
    cases pvl with
    | null => simp at h
    | undefinedVal => simp at h
    | bool b => simp at h
    | num n => simp at h
    | str s => simp at h
    | obj fs2 => simp at h
    | arr versions =>
      obtain ⟨fields, rfl⟩ :=
        jsGet_arr_implies_obj policy "PolicyVersionList" versions hpvl
      dsimp only at h
      rw [Bool.and_eq_true] at h
      obtain ⟨hdef, h⟩ := h
      cases hdvid : jsGet (Json.obj fields) "DefaultVersionId" with
      | error e => rw [hdvid] at h; simp at h
      | ok dvid =>
        rw [hdvid] at h
        dsimp only at h
        cases hfind : findDefaultVersion versions dvid with
        | error e => rw [hfind] at h; simp at h
        | ok dvOpt =>
          rw [hfind] at h
          unfold analyzePolicy analyzePolicyWith
          rw [hpvl]
          dsimp only
          rw [hdvid]
          dsimp only
          rw [hfind]
          dsimp only
          rw [show jsGet (Json.obj fields) "PolicyId"
                = .ok (lookupField fields "PolicyId") from rfl]
          dsimp only
          rw [show jsGet (Json.obj fields) "PolicyName"
                = .ok (lookupField fields "PolicyName") from rfl]
          dsimp only
          cases dvOpt with
          | none => exact ⟨_, rfl⟩
          | some dv =>
            dsimp only at h ⊢
            by_cases htv : truthy dv = false
            · rw [if_pos htv]
              exact ⟨_, rfl⟩
            · rw [if_neg htv] at h ⊢
              cases hdoc : jsGet dv "Document" with
              | error e => rw [hdoc] at h; simp at h
              | ok doc =>
                rw [hdoc] at h
                dsimp only at h ⊢
                by_cases htd : truthy doc = false
                · rw [if_pos htd]
                  exact ⟨_, rfl⟩
                · rw [if_neg htd] at h ⊢
                  cases hst : jsGet doc "Statement" with
                  | error e => rw [hst] at h; simp at h
                  | ok stmtJ =>
                    rw [hst] at h
                    dsimp only at h ⊢
                    obtain ⟨fs, hfs⟩ :=
                      analyzeStatements_isOk (normalizeStatementList stmtJ) 0 h
                    rw [hfs]
                    exact ⟨_, rfl⟩

/-- Witness for C1's amended theorem at a concrete well-formed policy. -/
theorem analyzePolicy_total_on_wf_input_witness :
    ∃ r, analyzePolicy policyOne = .ok r :=
  analyzePolicy_total_on_wf_input policyOne rfl

/-- Counterexample to claim C3 as stated: a policy whose version list is
the array `[null]` has no version whose identifier equals its
`DefaultVersionId`, yet `analyzePolicy` throws a `TypeError` (the `find`
callback reads `.VersionId` of `null`) instead of returning the empty,
risk-free result. -/
theorem analyzePolicy_null_version_entry_throws :
    analyzePolicy nullVersionEntryPolicy
      = .error "TypeError: Cannot read properties of null (reading VersionId)" := rfl

/-- Claim C3 (amended): for every policy whose version list reads as an
array of non-null, non-undefined entries and contains no version matching
the default-version identifier, or whose first matching default version
has no (truthy) document, `analyzePolicy` returns a result with an empty
finding list and `isHighRisk = false`, and does not signal an error.
(The original claim, without the non-null restriction on the version-list
entries, is refuted by `analyzePolicy_null_version_entry_throws`.) -/
theorem analyzePolicy_missing_default_empty (policy : Json)
    (h : noUsableDefaultDocument policy = true) :
    ∃ pid pname, analyzePolicy policy = .ok ⟨pid, pname, [], false⟩ := by
  unfold noUsableDefaultDocument at h
  cases hpvl : jsGet policy "PolicyVersionList" with
  | error e => rw [hpvl] at h; simp at h
  | ok pvl =>
    rw [hpvl] at h
    cases pvl with
    | null => simp at h
    | undefinedVal => simp at h
    | bool b => simp at h
    | num n => simp at h
    | str s => simp at h
    | obj fs2 => simp at h
    | arr versions =>
      obtain ⟨fields, rfl⟩ :=
        jsGet_arr_implies_obj policy "PolicyVersionList" versions hpvl
      dsimp only at h
      rw [Bool.and_eq_true] at h
      obtain ⟨hdef, h⟩ := h
      cases hdvid : jsGet (Json.obj fields) "DefaultVersionId" with
      | error e => rw [hdvid] at h; simp at h
      | ok dvid =>
        rw [hdvid] at h
        dsimp only at h
        cases hfind : findDefaultVersion versions dvid with
        | error e => rw [hfind] at h; simp at h
        | ok dvOpt =>
          rw [hfind] at h
          unfold analyzePolicy analyzePolicyWith
          rw [hpvl]
          dsimp only
          rw [hdvid]
          dsimp only
          rw [hfind]
          dsimp only
          rw [show jsGet (Json.obj fields) "PolicyId"
                = .ok (lookupField fields "PolicyId") from rfl]
          dsimp only
          rw [show jsGet (Json.obj fields) "PolicyName"
                = .ok (lookupField fields "PolicyName") from rfl]
          dsimp only
          cases dvOpt with
          | none => exact ⟨_, _, rfl⟩
          | some dv =>
            dsimp only at h ⊢
            by_cases htv : truthy dv = false
            · rw [if_pos htv]
              exact ⟨_, _, rfl⟩
            · rw [if_neg htv]
              cases hdoc : jsGet dv "Document" with
              | error e => rw [hdoc] at h; simp at h
              | ok doc =>
                rw [hdoc] at h
                dsimp only at h ⊢
                rw [Bool.not_eq_true'] at h
                rw [if_pos h]
                exact ⟨_, _, rfl⟩

/-- Witness for C3 at a policy whose `DefaultVersionId` matches no
version-list entry. -/
theorem analyzePolicy_missing_default_empty_witness :
    ∃ pid pname, analyzePolicy orphanDefaultPolicy = .ok ⟨pid, pname, [], false⟩ :=
  analyzePolicy_missing_default_empty orphanDefaultPolicy rfl

/-- Claim C4: a statement whose `Effect` is not exactly the string
`"Allow"` fires no catalog rule and contributes zero findings, regardless
of its `Action` or `Resource` content. -/
theorem analyzeStatement_non_allow_no_findings (s : Json) (i : Nat)
    (eff : Json) (hget : jsGet s "Effect" = .ok eff)
    (hne : jsEq eff (.str "Allow") = false) :
    analyzeStatement s i = .ok [] := by
  unfold analyzeStatement analyzeStatementWith
  rw [hget]
  dsimp only
  rw [if_neg (by simp [hne])]

/-- Witness for C4 at a `Deny` statement with wildcard action and
resource. -/
theorem analyzeStatement_non_allow_no_findings_witness :
    analyzeStatement denyStatement 0 = .ok [] :=
  analyzeStatement_non_allow_no_findings denyStatement 0 (.str "Deny") rfl rfl

/-- Every result `analyzePolicy` returns carries
`isHighRisk = flags.any (severity == HIGH)`. -/
theorem analyzePolicy_ok_isHighRisk (policy : Json) (r : PolicyAnalysisResult)
    (h : analyzePolicy policy = .ok r) :
    r.isHighRisk = r.flags.any (fun f => f.severity == "HIGH") := by
  unfold analyzePolicy analyzePolicyWith at h
  repeat' split at h
  all_goals first
    | (cases h; rfl)
    | simp at h

/-- Claim C5: `isHighRisk` is true iff at least one returned finding has
severity HIGH; in particular a policy with only MEDIUM/LOW findings
reports `isHighRisk = false`. -/
theorem analyzePolicy_isHighRisk_iff_high_finding (policy : Json)
    (r : PolicyAnalysisResult) (h : analyzePolicy policy = .ok r) :
    r.isHighRisk = true ↔ ∃ f ∈ r.flags, f.severity = "HIGH" := by
  rw [analyzePolicy_ok_isHighRisk policy r h, List.any_eq_true]
  simp only [beq_iff_eq]

/-- Witness for C5 at a policy whose only finding is MEDIUM: its result
reports `isHighRisk = false`. -/
theorem analyzePolicy_isHighRisk_iff_high_finding_witness :
    mediumOnlyResult.isHighRisk = true
      ↔ ∃ f ∈ mediumOnlyResult.flags, f.severity = "HIGH" :=
  analyzePolicy_isHighRisk_iff_high_finding policyTwo mediumOnlyResult rfl

/-- A firing rule keeps firing when an action string is appended. -/
theorem ruleFires_append_mono (m : MatchSpec) (actions : List String)
    (a : String) (resources : List Json)
    (h : ruleFires m actions resources = true) :
    ruleFires m (actions ++ [a]) resources = true := by
  cases m with
  | regexExact s =>
    simp only [ruleFires, List.any_append, Bool.or_eq_true] at h ⊢
    exact Or.inl h
  | actionExact s =>
    simp only [ruleFires] at h ⊢
    exact contains_append_left h
  | actionAnyOf ss =>
    simp only [ruleFires, List.any_append, Bool.or_eq_true] at h ⊢
    exact Or.inl h
  | actionAllOf ss =>
    simp only [ruleFires, List.all_eq_true] at h ⊢
    exact fun s hs => contains_append_left (h s hs)
  | resourceWildcard =>
    simpa [ruleFires] using h

/-- Catalog evaluation is monotone under pointwise-monotone firing. -/
theorem catalogFlags_mono (rules : List DetectionRule)
    (actions actions' : List String) (resources : List Json) (i : Nat)
    (hmono : ∀ m, ruleFires m actions resources = true →
       ruleFires m actions' resources = true)
    (f : SecurityFlag) (hf : f ∈ catalogFlags rules actions resources i) :
    f ∈ catalogFlags rules actions' resources i := by
  induction rules with
  | nil => simp [catalog_nil] at hf
  | cons r rest ih =>
    rw [catalog_cons] at hf ⊢
    by_cases hr : ruleFires r.matchSpec actions resources = true
    · rw [if_pos hr] at hf
      rw [if_pos (hmono _ hr)]
      rcases List.mem_append.mp hf with h1 | h1
      · exact List.mem_append_left _ h1
      · exact List.mem_append_right _ (ih h1)
    · rw [if_neg hr] at hf
      rw [List.nil_append] at hf
      by_cases hr' : ruleFires r.matchSpec actions' resources = true
      · rw [if_pos hr']
        exact List.mem_append_right _ (ih hf)
      · rw [if_neg hr']
        rw [List.nil_append]
        exact ih hf

/-- The statement loop distributes over appending one statement. -/
theorem analyzeStatements_snoc (xs : List Json) (s : Json) (i : Nat)
    (fs : List SecurityFlag) (h : analyzeStatements xs i = .ok fs)
    (hs : jsDefined s = true) :
    ∃ g, analyzeStatements (xs ++ [s]) i = .ok (fs ++ g) := by
  induction xs generalizing i fs with
  | nil =>
    obtain ⟨g, hg⟩ := analyzeStatement_isOk s i hs
    simp only [analyzeStatements, analyzeStatementsWith] at h
    injection h with h
    subst h
    refine ⟨g ++ [], ?_⟩
    simp only [List.nil_append, analyzeStatements, analyzeStatementsWith, hg]
  | cons s0 rest ih =>
    simp only [analyzeStatements, analyzeStatementsWith] at h
    cases h0 : analyzeStatement s0 i with
    | error e => rw [h0] at h; simp at h
    | ok fs0 =>
      rw [h0] at h
      dsimp only at h
      cases hrest : analyzeStatementsWith analyzeStatement rest (i + 1) with
      | error e => rw [hrest] at h; simp at h
      | ok more =>
        rw [hrest] at h
        dsimp only at h
        injection h with h
        subst h
        obtain ⟨g, hg⟩ := ih (i + 1) more hrest
        refine ⟨g, ?_⟩
        simp only [List.cons_append, analyzeStatements, analyzeStatementsWith,
          List.append_eq, h0]
        simp only [analyzeStatements] at hg
        rw [hg]
        dsimp only
        rw [List.append_assoc]

/-- Claim C8: findings are monotone under growth of the policy. Appending
one more (non-null) statement to the end of the normalized statement
sequence preserves, as a prefix, every finding produced for the original
statements; and appending an action string to a statement's action list
never removes any finding that statement previously fired. -/
theorem analyzePolicy_findings_monotone :
    (∀ (xs : List Json) (i : Nat) (fs : List SecurityFlag) (s : Json),
       analyzeStatements xs i = .ok fs → jsDefined s = true →
       ∃ g, analyzeStatements (xs ++ [s]) i = .ok (fs ++ g))
    ∧ (∀ (actions : List String) (a : String) (resources : List Json)
         (i : Nat) (f : SecurityFlag),
       f ∈ statementFlags actions resources i →
       f ∈ statementFlags (actions ++ [a]) resources i) := by
  constructor
  · intro xs i fs s h hs
    exact analyzeStatements_snoc xs s i fs h hs
  · intro actions a resources i f hf
    rw [statementFlags_eq_catalogFlags] at hf ⊢
    exact catalogFlags_mono evaluationOrderCatalog actions (actions ++ [a])
      resources i (fun m hm => ruleFires_append_mono m actions a resources hm) f hf

/-- Witness for C8: appending a statement keeps the `passrole-any` finding
of the first statement; appending an action keeps the `passrole-any`
finding of the grown statement. -/
theorem analyzePolicy_findings_monotone_witness :
    (∃ g, analyzeStatements ([passroleStatement] ++ [denyStatement]) 0
        = .ok ([ruleFlag passroleAnyRule 0] ++ g))
    ∧ ruleFlag passroleAnyRule 0
        ∈ statementFlags (["iam:PassRole"] ++ ["s3:GetObject"]) [] 0 :=
  ⟨analyzePolicy_findings_monotone.1 [passroleStatement] 0
      [ruleFlag passroleAnyRule 0] denyStatement rfl rfl,
   analyzePolicy_findings_monotone.2 ["iam:PassRole"] "s3:GetObject" [] 0
      (ruleFlag passroleAnyRule 0) (by decide)⟩

/-- A left fold adding `g` of each element equals the sum of the map. -/
theorem foldl_add_map (l : List PolicyAnalysisResult)
    (g : PolicyAnalysisResult → Nat) (n : Nat) :
    l.foldl (fun sum r => sum + g r) n = n + (l.map g).sum := by
  induction l generalizing n with
  | nil => simp
  | cons x xs ih =>
    simp only [List.foldl_cons, List.map_cons, List.sum_cons, ih]
    omega

/-- Claim C9: `getSecuritySummary` returns exactly the four aggregates of
`analyzeAllPolicies` — policy count, high-risk count, total finding count,
HIGH finding count — and, on the concrete three-policy collection where
exactly one policy has a HIGH finding and one has only a MEDIUM finding,
`highRiskPolicies = 1` (with 3 policies, 2 findings, 1 HIGH finding). -/
theorem getSecuritySummary_aggregates :
    (∀ (policies : List (String × Json)) (results : List PolicyAnalysisResult),
       analyzeAllPolicies policies = .ok results →
       getSecuritySummary policies = .ok
         { totalPolicies := results.length,
           highRiskPolicies := (results.filter (fun r => r.isHighRisk)).length,
           totalSecurityFlags := (results.map (fun r => r.flags.length)).sum,
           highSeverityFlags := (results.map
             (fun r => (r.flags.filter (fun f => f.severity == "HIGH")).length)).sum })
    ∧ getSecuritySummary threePolicies = .ok ⟨3, 1, 2, 1⟩ := by
  constructor
  · intro policies results h
    unfold getSecuritySummary
    rw [h]
    simp only [foldl_add_map, Nat.zero_add]
  · rfl

/-- Witness for C9's universally quantified part at `threePolicies`. -/
theorem getSecuritySummary_aggregates_witness :
    getSecuritySummary threePolicies = .ok
      { totalPolicies := threeResults.length,
        highRiskPolicies := (threeResults.filter (fun r => r.isHighRisk)).length,
        totalSecurityFlags := (threeResults.map (fun r => r.flags.length)).sum,
        highSeverityFlags := (threeResults.map
          (fun r => (r.flags.filter (fun f => f.severity == "HIGH")).length)).sum } :=
  getSecuritySummary_aggregates.1 threePolicies threeResults rfl

/-- Every result in an `analyzeAllPolicies` output comes from
`analyzePolicy` on some input policy. -/
theorem analyzeAllPolicies_mem (policies : List (String × Json))
    (results : List PolicyAnalysisResult)
    (h : analyzeAllPolicies policies = .ok results)
    (r : PolicyAnalysisResult) (hr : r ∈ results) :
    ∃ p, analyzePolicy p = .ok r := by
  induction policies generalizing results with
  | nil =>
    unfold analyzeAllPolicies at h
    injection h with h
    subst h
    simp at hr
  | cons kp rest ih =>
    obtain ⟨k, p⟩ := kp
    unfold analyzeAllPolicies at h
    cases hA : analyzePolicy p with
    | error e => rw [hA] at h; simp at h
    | ok r0 =>
      rw [hA] at h
      dsimp only at h
      cases hRest : analyzeAllPolicies rest with
      | error e => rw [hRest] at h; simp at h
      | ok rs =>
        rw [hRest] at h
        dsimp only at h
        injection h with h
        subst h
        rcases List.mem_cons.mp hr with h1 | h1
        · exact ⟨p, by rw [hA, h1]⟩
        · exact ih rs hRest h1

/-- Claim C10: `getHighRiskPolicies` is exactly the order-preserving
filter of `analyzeAllPolicies` on `isHighRisk`, and every result it
returns contains at least one finding of severity HIGH. -/
theorem getHighRiskPolicies_filter_spec (policies : List (String × Json))
    (results : List PolicyAnalysisResult)
    (h : analyzeAllPolicies policies = .ok results) :
    getHighRiskPolicies policies = .ok (results.filter (fun r => r.isHighRisk))
    ∧ ∀ r ∈ results.filter (fun r => r.isHighRisk),
        ∃ f ∈ r.flags, f.severity = "HIGH" := by
  constructor
  · unfold getHighRiskPolicies
    rw [h]
  · intro r hr
    rw [List.mem_filter] at hr
    obtain ⟨p, hp⟩ := analyzeAllPolicies_mem policies results h r hr.1
    have hiff := analyzePolicy_ok_isHighRisk p r hp
    rw [hr.2] at hiff
    have hany : r.flags.any (fun f => f.severity == "HIGH") = true := hiff.symm
    rw [List.any_eq_true] at hany
    obtain ⟨f, hf, hsev⟩ := hany
    exact ⟨f, hf, by simpa using hsev⟩

/-- Witness for C10 at `threePolicies`. -/
theorem getHighRiskPolicies_filter_spec_witness :
    getHighRiskPolicies threePolicies
        = .ok (threeResults.filter (fun r => r.isHighRisk))
    ∧ ∀ r ∈ threeResults.filter (fun r => r.isHighRisk),
        ∃ f ∈ r.flags, f.severity = "HIGH" :=
  getHighRiskPolicies_filter_spec threePolicies threeResults rfl
